import Mathlib

/-!
Verification of the Order microservice (Grupo-MACC/Order).

Shallow embedding of the parts of the code that the claims are about:

* status constants of sql/models.py,
* the warehouse status normalizer of broker/order_broker_service.py,
* the CRUD status updates of sql/crud.py,
* the warehouse event handler of broker/order_broker_service.py,
* the confirmation-saga states of saga/state_machine/order_confirm_states.py,
* the cancellation saga of saga/state_machine/order_cancel_states.py and
  order_cancel_saga.py,
* the saga registries of saga/state_machine/saga_manager.py and
  order_cancel_saga_manager.py.

Python strings are modelled as Lean strings (ASCII model of str.strip,
str.lower, and the single-character str.replace calls used by the code).
Database rows are records; each async CRUD call is modelled as a pure
update on the row (the success path, where the row exists).
-/

namespace OrderService

/-! ## Status constants (sql/models.py, class Order) -/

def CREATION_PENDING : String := "Pending"

def CREATION_PAID : String := "Paid"

def CREATION_CONFIRMED : String := "Confirmed"

def CREATION_NO_MONEY : String := "NoMoney"

def CREATION_NOT_DELIVERABLE : String := "NotDeliverable"

def CREATION_RETURNED : String := "Returned"

def MFG_NOT_STARTED : String := "NotStarted"

def MFG_REQUESTED : String := "Requested"

def MFG_IN_PROGRESS : String := "InProgress"

def MFG_COMPLETED : String := "Completed"

def MFG_FAILED : String := "Failed"

def MFG_CANCELING : String := "Canceling"

def MFG_CANCELED : String := "Canceled"

def MFG_CANCEL_PENDING_REFUND : String := "CancelPendingRefund"

def DELIVERY_NOT_STARTED : String := "NotStarted"

def DELIVERY_DELIVERED : String := "Delivered"

/-! ## Status normalizer (broker/order_broker_service.py, _normalize_fabrication_status)

The Python code computes
`v = str(raw).strip().lower().replace("-", "_").replace(" ", "_")`
and then tests membership of `v` in four hard-coded sets.  `strip`,
`lower` and the two single-character `replace` calls are modelled
character by character (ASCII). -/

/-- Whitespace stripped by Python str.strip (ASCII subset). -/
def isPyWhitespace (c : Char) : Bool :=
  c = ' ' || c = '\t' || c = '\n' || c = '\r' || c = '\x0b' || c = '\x0c'

/-- ASCII lower-casing, as Python str.lower acts on ASCII letters. -/
def asciiToLower (c : Char) : Char :=
  if 'A' ≤ c && c ≤ 'Z' then Char.ofNat (c.toNat + 32) else c

/-- The two replace calls: replace("-", "_").replace(" ", "_"),
single-character patterns, hence a character map. -/
def collapseSeparator (c : Char) : Char :=
  if c = '-' || c = ' ' then '_' else c

/-- str.strip on a character list. -/
def stripChars (l : List Char) : List Char :=
  ((l.dropWhile isPyWhitespace).reverse.dropWhile isPyWhitespace).reverse

/-- v = str(raw).strip().lower().replace("-", "_").replace(" ", "_") -/
def canonStatus (raw : String) : String :=
  String.mk ((stripChars raw.data).map (fun c => collapseSeparator (asciiToLower c)))

/-- Token set mapped to Completed in _normalize_fabrication_status. -/
def completedTokens : List String :=
  ["completed", "complete", "done", "finished", "fabricated"]

/-- Token set mapped to InProgress in _normalize_fabrication_status. -/
def inProgressTokens : List String :=
  ["in_progress", "inprogress", "working", "manufacturing", "fabricating", "running"]

/-- Token set mapped to Requested in _normalize_fabrication_status. -/
def requestedTokens : List String :=
  ["requested", "request", "queued", "pending", "created"]

/-- Token set mapped to Failed in _normalize_fabrication_status. -/
def failedTokens : List String :=
  ["failed", "error", "ko", "rejected"]

/-- _normalize_fabrication_status(raw).  Python's `if not raw` guard on a
string argument is emptiness (None is folded into the empty string). -/
def normalize_fabrication_status (raw : String) : String :=
  if raw = "" then MFG_IN_PROGRESS
  else
    let v := canonStatus raw
    if completedTokens.contains v then MFG_COMPLETED
    else if inProgressTokens.contains v then MFG_IN_PROGRESS
    else if requestedTokens.contains v then MFG_REQUESTED
    else if failedTokens.contains v then MFG_FAILED
    else MFG_IN_PROGRESS

/-- Written from the words of the amended claim C7: same mapping,
with the token sets as the code actually has them (request belongs to the
Requested set, inprogress to the InProgress set) and every empty or
unknown string falling through to InProgress, with no separate emptiness
guard. -/
def specNormalizeAmendedC7 (x : String) : String :=
  let v := canonStatus x
  if ["completed", "complete", "done", "finished", "fabricated"].contains v then
    MFG_COMPLETED
  else if ["in_progress", "inprogress", "working", "manufacturing", "fabricating",
      "running"].contains v then
    MFG_IN_PROGRESS
  else if ["requested", "request", "queued", "pending", "created"].contains v then
    MFG_REQUESTED
  else if ["failed", "error", "ko", "rejected"].contains v then
    MFG_FAILED
  else MFG_IN_PROGRESS

theorem canonStatus_empty : canonStatus "" = "" := rfl

theorem normalize_empty_eq :
    normalize_fabrication_status "" = specNormalizeAmendedC7 "" := rfl

/-- The normalizer agrees with the amended per-set description on every input. -/
theorem normalize_eq_specAmended (x : String) :
    normalize_fabrication_status x = specNormalizeAmendedC7 x := by
  by_cases h : x = ""
  · subst h; exact normalize_empty_eq
  · unfold normalize_fabrication_status specNormalizeAmendedC7
    rw [if_neg h]
    rfl

/-- The normalizer only produces the four internal fabrication statuses. -/
theorem normalize_output_cases (x : String) :
    normalize_fabrication_status x = MFG_COMPLETED ∨
    normalize_fabrication_status x = MFG_IN_PROGRESS ∨
    normalize_fabrication_status x = MFG_REQUESTED ∨
    normalize_fabrication_status x = MFG_FAILED := by
  unfold normalize_fabrication_status
  split
  · right; left; rfl
  · dsimp only
    split
    · left; rfl
    · split
      · right; left; rfl
      · split
        · right; right; left; rfl
        · split
          · right; right; right; rfl
          · right; left; rfl

theorem normalize_fixes_completed :
    normalize_fabrication_status MFG_COMPLETED = MFG_COMPLETED := by decide

theorem normalize_fixes_in_progress :
    normalize_fabrication_status MFG_IN_PROGRESS = MFG_IN_PROGRESS := by decide

theorem normalize_fixes_requested :
    normalize_fabrication_status MFG_REQUESTED = MFG_REQUESTED := by decide

theorem normalize_fixes_failed :
    normalize_fabrication_status MFG_FAILED = MFG_FAILED := by decide

/-- Claim C9: the status normalizer is idempotent on its outputs:
normalize(normalize(x)) = normalize(x) for every input string x. -/
theorem claim_C9_normalize_idempotent (x : String) :
    normalize_fabrication_status (normalize_fabrication_status x) =
      normalize_fabrication_status x := by
  rcases normalize_output_cases x with h | h | h | h <;> rw [h]
  · exact normalize_fixes_completed
  · exact normalize_fixes_in_progress
  · exact normalize_fixes_requested
  · exact normalize_fixes_failed

/-! ## Order rows and CRUD updates (sql/models.py, sql/crud.py)

A row of the fabrication_order table.  Piece counts are integers (Python
ints); each crud update is modelled on the row itself (the success path
of db.get, i.e. the row exists). -/

structure OrderRec where
  id : Nat
  client_id : Nat
  description : String
  address : Option String
  pieces_a : Int
  pieces_b : Int
  number_of_pieces : Int
  creation_status : String
  fabrication_status : String
  delivery_status : String
  status : String
deriving DecidableEq, Repr

/-- crud.update_order_creation_status: sets creation_status and the
legacy status column. -/
def update_order_creation_status (o : OrderRec) (s : String) : OrderRec :=
  { o with creation_status := s, status := s }

/-- crud.update_order_fabrication_status: sets fabrication_status and the
legacy status column. -/
def update_order_fabrication_status (o : OrderRec) (s : String) : OrderRec :=
  { o with fabrication_status := s, status := s }

/-- crud.update_order_delivery_status: sets delivery_status and the
legacy status column. -/
def update_order_delivery_status (o : OrderRec) (s : String) : OrderRec :=
  { o with delivery_status := s, status := s }

/-! ## Order creation (sql/schemas.py OrderPost, sql/crud.py create_order_from_schema) -/

/-- The OrderPost request schema: two counts with field constraint ge=0
and default 0, plus description and address defaults. -/
structure OrderPost where
  pieces_a : Int := 0
  pieces_b : Int := 0
  description : String := "No description"
  address : Option String := none
deriving DecidableEq, Repr

/-- Pydantic validation of OrderPost: the only constraints are ge=0 on
each piece count. -/
def orderPostValid (p : OrderPost) : Bool :=
  (0 ≤ p.pieces_a) && (0 ≤ p.pieces_b)

/-- crud.create_order_from_schema: builds the row with
number_of_pieces = pieces_a + pieces_b and the initial phase statuses.
The id is assigned by the database. -/
def create_order_from_schema (p : OrderPost) (current_user : Nat) (new_id : Nat) :
    OrderRec :=
  let total := p.pieces_a + p.pieces_b
  { id := new_id
    client_id := current_user
    description := p.description
    address := p.address
    pieces_a := p.pieces_a
    pieces_b := p.pieces_b
    number_of_pieces := total
    creation_status := CREATION_PENDING
    fabrication_status := MFG_NOT_STARTED
    delivery_status := DELIVERY_NOT_STARTED
    status := CREATION_PENDING }

/-! ## Warehouse event handler (broker/order_broker_service.py)

handle_warehouse_event, on the path where the payload has an order_id
and the order exists.  The handler reads the previous statuses, always
persists the normalized status, and publishes order.fabricated only on
the guarded branch. -/

/-- Payload of publish_order_fabricated. -/
structure FabricatedPayload where
  order_id : Nat
  number_of_pieces : Int
  user_id : Nat
  message : String
deriving DecidableEq, Repr

/-- publish_order_fabricated: the JSON body it publishes on routing key
order.fabricated. -/
def publish_order_fabricated (order_id : Nat) (number_of_pieces : Int)
    (user_id : Nat) : FabricatedPayload :=
  { order_id := order_id
    number_of_pieces := number_of_pieces
    user_id := user_id
    message := "Orden creada" }

/-- handle_warehouse_event on order o with raw status string raw
(data.get("status") or data.get("fabrication_status"); a missing status
is the empty string).  Returns the updated row and the list of
order.fabricated events published while handling the message. -/
def handle_warehouse_event (o : OrderRec) (raw : String) :
    OrderRec × List FabricatedPayload :=
  let new_status := normalize_fabrication_status raw
  let prev_fab_status := o.fabrication_status
  let prev_delivery_status := o.delivery_status
  let order_id_int := o.id
  let num_pieces := o.number_of_pieces
  let user_id := o.client_id
  let o2 := update_order_fabrication_status o new_status
  if new_status = MFG_COMPLETED then
    if prev_fab_status = MFG_COMPLETED then (o2, [])
    else if prev_delivery_status ≠ DELIVERY_NOT_STARTED then (o2, [])
    else (o2, [publish_order_fabricated order_id_int num_pieces user_id])
  else (o2, [])

/-- A sequence of warehouse events handled for one order, with the
published order.fabricated events accumulated. -/
def run_warehouse_events (o : OrderRec) (events : List String) :
    OrderRec × List FabricatedPayload :=
  match events with
  | [] => (o, [])
  | e :: rest =>
    let step := handle_warehouse_event o e
    let tail := run_warehouse_events step.1 rest
    (tail.1, step.2 ++ tail.2)

/-- The handler always persists the normalized status, whatever the
previous fabrication status was. -/
theorem handle_warehouse_event_fab (o : OrderRec) (raw : String) :
    (handle_warehouse_event o raw).1.fabrication_status =
      normalize_fabrication_status raw := by
  unfold handle_warehouse_event
  dsimp only
  split
  · split
    · rfl
    · split
      · rfl
      · rfl
  · rfl

/-- The handler never touches creation_status or delivery_status. -/
theorem handle_warehouse_event_frame (o : OrderRec) (raw : String) :
    (handle_warehouse_event o raw).1.creation_status = o.creation_status ∧
    (handle_warehouse_event o raw).1.delivery_status = o.delivery_status := by
  unfold handle_warehouse_event
  dsimp only
  split
  · split
    · exact ⟨rfl, rfl⟩
    · split
      · exact ⟨rfl, rfl⟩
      · exact ⟨rfl, rfl⟩
  · exact ⟨rfl, rfl⟩

/-- Publication characterization: order.fabricated is published on an
event exactly when the normalized status is Completed, the previous
fabrication status was not Completed, and the previous delivery status
was NotStarted; the payload is built from id, number_of_pieces and
client_id. -/
theorem handle_warehouse_event_pubs (o : OrderRec) (raw : String) :
    (handle_warehouse_event o raw).2 =
      if normalize_fabrication_status raw = MFG_COMPLETED ∧
          o.fabrication_status ≠ MFG_COMPLETED ∧
          o.delivery_status = DELIVERY_NOT_STARTED then
        [publish_order_fabricated o.id o.number_of_pieces o.client_id]
      else [] := by
  unfold handle_warehouse_event
  dsimp only
  by_cases h1 : normalize_fabrication_status raw = MFG_COMPLETED
  · rw [if_pos h1]
    by_cases h2 : o.fabrication_status = MFG_COMPLETED
    · rw [if_pos h2, if_neg]
      simp [h2]
    · rw [if_neg h2]
      by_cases h3 : o.delivery_status = DELIVERY_NOT_STARTED
      · rw [if_neg (by simpa using h3), if_pos ⟨h1, h2, h3⟩]
      · rw [if_pos (by simpa using h3), if_neg]
        simp [h3]
  · rw [if_neg h1, if_neg]
    simp [h1]

/-! ## Confirmation saga (saga/state_machine/order_confirm_states.py)

Each state class becomes a constructor; on_event becomes a transition
function on the stripped event type string; on_enter becomes a list of
effects (persistence calls and published commands; pure log lines are
elided). -/

inductive ConfirmState where
  | Pending
  | Paid
  | Confirmed
  | NoMoney
  | NotDeliverable
  | Returned
deriving DecidableEq, Repr

/-- Side effects performed by the on_enter hooks of the confirmation
saga states (saga/broker_saga/saga_broker_order_confirm.py publishers,
services/order_service.py updates). -/
inductive ConfirmEffect where
  | persistCreationStatus (st : String)
  | persistFabricationStatus (st : String)
  | publishPayCommand (order_id user_id : Nat) (number_of_pieces : Int)
  | publishDeliveryCheckCommand (order_id user_id : Nat) (address : Option String)
  | publishDoOrder (order_id : Nat) (number_of_pieces pieces_a pieces_b : Int)
  | publishReturnMoneyCommand (order_id user_id : Nat)
deriving DecidableEq, Repr

/-- on_enter of each confirmation state, applied to the saga order
snapshot (user_id is the client_id field of the row).

Source effects:
* Pending: publish the pay command.
* Paid: publish the check.delivery command.
* Confirmed: persist fabrication_status=Requested, then publish the
  minimal do-order command (routing key order.created).
* NoMoney: log only.
* NotDeliverable: publish the return.money command.
* Returned: log only. -/
def confirm_on_enter (s : ConfirmState) (o : OrderRec) : List ConfirmEffect :=
  match s with
  | .Pending => [.publishPayCommand o.id o.client_id o.number_of_pieces]
  | .Paid => [.publishDeliveryCheckCommand o.id o.client_id o.address]
  | .Confirmed =>
      [.persistFabricationStatus MFG_REQUESTED,
       .publishDoOrder o.id o.number_of_pieces o.pieces_a o.pieces_b]
  | .NoMoney => []
  | .NotDeliverable => [.publishReturnMoneyCommand o.id o.client_id]
  | .Returned => []

/-- True iff an effect writes the creation_status column. -/
def isPersistCreation : ConfirmEffect → Bool
  | .persistCreationStatus _ => true
  | _ => false

/-- on_event of each confirmation state, on the stripped event type
string evt = (event.get("type") or "").strip().  Follows the source
branch order, including the no-op compatibility branches
(order_created, paid, confirmed, notdeliverable). -/
def confirm_on_event (s : ConfirmState) (evt : String) : ConfirmState :=
  match s with
  | .Pending =>
      if evt = "order_created" then .Pending
      else if evt = "payment_accepted" then .Paid
      else if evt = "payment_rejected" then .NoMoney
      else .Pending
  | .Paid =>
      if evt = "paid" then .Paid
      else if evt = "delivery_possible" then .Confirmed
      else if evt = "delivery_not_possible" then .NotDeliverable
      else .Paid
  | .Confirmed => .Confirmed
  | .NoMoney => .NoMoney
  | .NotDeliverable =>
      if evt = "notdeliverable" then .NotDeliverable
      else if evt = "money_returned" then .Returned
      else .NotDeliverable
  | .Returned => .Returned

/-- The initial state of the confirmation saga
(saga/state_machine/order_saga.py, OrderSaga sets state = Pending()). -/
def confirmInitialState : ConfirmState := .Pending

/-- Written from the words of claim C8: the listed transitions, and
every other pair leaves the state unchanged. -/
def specConfirmTransitionC8 (s : ConfirmState) (evt : String) : ConfirmState :=
  if s = .Pending ∧ evt = "payment_accepted" then .Paid
  else if s = .Pending ∧ evt = "payment_rejected" then .NoMoney
  else if s = .Paid ∧ evt = "delivery_possible" then .Confirmed
  else if s = .Paid ∧ evt = "delivery_not_possible" then .NotDeliverable
  else if s = .NotDeliverable ∧ evt = "money_returned" then .Returned
  else s

/-- The transition function of the source states agrees with the
claimed transition table on every state and event string. -/
theorem confirm_on_event_eq_spec (s : ConfirmState) (evt : String) :
    confirm_on_event s evt = specConfirmTransitionC8 s evt := by
  cases s <;> simp only [confirm_on_event, specConfirmTransitionC8] <;>
    split_ifs <;> simp_all

/-- No entry effect of any confirmation state writes creation_status. -/
theorem confirm_on_enter_no_creation (s : ConfirmState) (o : OrderRec) :
    (confirm_on_enter s o).all (fun e => !(isPersistCreation e)) = true := by
  cases s <;> rfl

/-! ## Cancellation saga (saga/state_machine/order_cancel_states.py,
order_cancel_saga.py)

States become constructors; Refunding.on_event stores the event reason
in saga.last_error before transitioning to CancelPendingRefund; on_enter
hooks persist the saga record state (and the order's fabrication status)
through services/order_service.py. -/

inductive CancelState where
  | Canceling
  | Refunding
  | Canceled
  | CancelPendingRefund
deriving DecidableEq, Repr

def cancelStateName : CancelState → String
  | .Canceling => "Canceling"
  | .Refunding => "Refunding"
  | .Canceled => "Canceled"
  | .CancelPendingRefund => "CancelPendingRefund"

/-- An internal cancellation event, as built by
saga/broker_saga/saga_broker_order_cancel.py: a type string and an
optional reason (present on refund_failed). -/
structure CancelEvent where
  type : String
  reason : Option String := none
deriving DecidableEq, Repr

/-- A row of the cancel_saga table (sql/models.py, CancelSaga). -/
structure CancelSagaRecord where
  saga_id : String
  order_id : Nat
  state : String
  error : Option String
deriving DecidableEq, Repr

/-- crud.update_cancel_saga: sets state; sets error only when a non-null
error is passed. -/
def update_cancel_saga (r : CancelSagaRecord) (state : String)
    (error : Option String) : CancelSagaRecord :=
  { r with
    state := state
    error := match error with
      | some e => some e
      | none => r.error }

/-- on_event of the cancellation states, returning the next state and
the saga's last_error field after the call (Refunding stores the reason
of a refund_failed event). -/
def cancel_on_event (s : CancelState) (last_error : Option String)
    (e : CancelEvent) : CancelState × Option String :=
  match s with
  | .Canceling =>
      if e.type = "fabrication_canceled" then (.Refunding, last_error)
      else (.Canceling, last_error)
  | .Refunding =>
      if e.type = "refunded" then (.Canceled, last_error)
      else if e.type = "refund_failed" then (.CancelPendingRefund, e.reason)
      else (.Refunding, last_error)
  | .Canceled => (.Canceled, last_error)
  | .CancelPendingRefund => (.CancelPendingRefund, last_error)

/-- The order-side write performed by each on_enter hook
(update_order_fabrication_status; Refunding writes none). -/
def cancel_on_enter_fab : CancelState → Option String
  | .Canceling => some MFG_CANCELING
  | .Refunding => none
  | .Canceled => some MFG_CANCELED
  | .CancelPendingRefund => some MFG_CANCEL_PENDING_REFUND

/-- The saga-record write performed by each on_enter hook
(update_cancel_saga; only CancelPendingRefund passes the stored
last_error). -/
def cancel_on_enter_record (s : CancelState) (last_error : Option String)
    (r : CancelSagaRecord) : CancelSagaRecord :=
  match s with
  | .Canceling => update_cancel_saga r "Canceling" none
  | .Refunding => update_cancel_saga r "Refunding" none
  | .Canceled => update_cancel_saga r "Canceled" none
  | .CancelPendingRefund => update_cancel_saga r "CancelPendingRefund" last_error

/-- In-memory saga plus its persistent record and the trace of values
the record's state column has taken (consecutive writes of an unchanged
value collapse into one entry). -/
structure CancelSagaRun where
  state : CancelState
  last_error : Option String
  record : CancelSagaRecord
  trace : List String
deriving DecidableEq, Repr

/-- CancelSaga.on_event_saga: delegate to the current state; on a state
change, store the new state and run its on_enter (which persists the
record). -/
def cancel_saga_step (a : CancelSagaRun) (e : CancelEvent) : CancelSagaRun :=
  let res := cancel_on_event a.state a.last_error e
  if res.1 = a.state then a
  else
    { state := res.1
      last_error := res.2
      record := cancel_on_enter_record res.1 res.2 a.record
      trace := a.trace ++ [cancelStateName res.1] }

/-- Admission (crud.create_cancel_saga with state Canceling) followed by
CancelSaga.start, which runs Canceling.on_enter. -/
def cancel_saga_start (saga_id : String) (order_id : Nat) : CancelSagaRun :=
  let r0 : CancelSagaRecord :=
    { saga_id := saga_id, order_id := order_id, state := "Canceling", error := none }
  { state := .Canceling
    last_error := none
    record := cancel_on_enter_record .Canceling none r0
    trace := ["Canceling"] }

/-- A whole cancellation saga: start, then deliver the events in order. -/
def cancel_saga_run (saga_id : String) (order_id : Nat)
    (events : List CancelEvent) : CancelSagaRun :=
  events.foldl cancel_saga_step (cancel_saga_start saga_id order_id)

/-- Written from the words of claim C6: the only transitions are
Canceling to Refunding on fabrication_canceled, Refunding to Canceled on
refunded, Refunding to CancelPendingRefund on refund_failed; everything
else stays put. -/
def specCancelTransitionC6 (s : CancelState) (e : CancelEvent) : CancelState :=
  if s = .Canceling ∧ e.type = "fabrication_canceled" then .Refunding
  else if s = .Refunding ∧ e.type = "refunded" then .Canceled
  else if s = .Refunding ∧ e.type = "refund_failed" then .CancelPendingRefund
  else s

theorem cancel_on_event_eq_spec (s : CancelState) (le : Option String)
    (e : CancelEvent) :
    (cancel_on_event s le e).1 = specCancelTransitionC6 s e := by
  cases s <;> simp only [cancel_on_event, specCancelTransitionC6] <;>
    split_ifs <;> simp_all

theorem cancel_on_event_error (s : CancelState) (le : Option String)
    (e : CancelEvent) :
    (cancel_on_event s le e).2 =
      if s = .Refunding ∧ e.type = "refund_failed" then e.reason else le := by
  cases s <;> simp only [cancel_on_event] <;> split_ifs <;> simp_all

/-- Invariant tying the in-memory state to the trace of record states. -/
def CancelRunInv (a : CancelSagaRun) : Prop :=
  (a.state = .Canceling ∧ a.trace = ["Canceling"] ∧
    a.record.state = "Canceling") ∨
  (a.state = .Refunding ∧ a.trace = ["Canceling", "Refunding"] ∧
    a.record.state = "Refunding") ∨
  (a.state = .Canceled ∧ a.trace = ["Canceling", "Refunding", "Canceled"] ∧
    a.record.state = "Canceled") ∨
  (a.state = .CancelPendingRefund ∧
    a.trace = ["Canceling", "Refunding", "CancelPendingRefund"] ∧
    a.record.state = "CancelPendingRefund")

theorem cancel_saga_step_inv (a : CancelSagaRun) (e : CancelEvent)
    (h : CancelRunInv a) : CancelRunInv (cancel_saga_step a e) := by
  rcases h with ⟨hs, ht, hr⟩ | ⟨hs, ht, hr⟩ | ⟨hs, ht, hr⟩ | ⟨hs, ht, hr⟩
  · by_cases he : e.type = "fabrication_canceled"
    · right; left
      simp [cancel_saga_step, cancel_on_event, hs, he, ht,
        cancel_on_enter_record, update_cancel_saga, cancelStateName]
    · left
      simp [cancel_saga_step, cancel_on_event, hs, he, ht, hr]
  · by_cases he1 : e.type = "refunded"
    · right; right; left
      simp [cancel_saga_step, cancel_on_event, hs, he1, ht,
        cancel_on_enter_record, update_cancel_saga, cancelStateName]
    · by_cases he2 : e.type = "refund_failed"
      · right; right; right
        simp [cancel_saga_step, cancel_on_event, hs, he1, he2, ht,
          cancel_on_enter_record, update_cancel_saga, cancelStateName]
      · right; left
        simp [cancel_saga_step, cancel_on_event, hs, he1, he2, ht, hr]
  · right; right; left
    simp [cancel_saga_step, cancel_on_event, hs, ht, hr]
  · right; right; right
    simp [cancel_saga_step, cancel_on_event, hs, ht, hr]

theorem cancel_run_inv_foldl (events : List CancelEvent) (a : CancelSagaRun)
    (h : CancelRunInv a) :
    CancelRunInv (events.foldl cancel_saga_step a) := by
  induction events generalizing a with
  | nil => exact h
  | cons e rest ih => exact ih _ (cancel_saga_step_inv a e h)

theorem cancel_run_inv (saga_id : String) (order_id : Nat)
    (events : List CancelEvent) :
    CancelRunInv (cancel_saga_run saga_id order_id events) := by
  apply cancel_run_inv_foldl
  left
  exact ⟨rfl, rfl, rfl⟩

/-! ## Saga registries (saga/state_machine/saga_manager.py,
order_cancel_saga_manager.py)

The in-memory dict active_sagas is an association list; a dict
assignment overwrites the entry for an existing key.  An in-memory
instance is represented by its current state; a freshly constructed
instance starts in the initial state of its machine.  The confirmation
manager never reaches its assignment: its OrderSaga constructor call
does not match the constructor's signature and raises. -/

def dictInsert {κ α : Type} [DecidableEq κ] (m : List (κ × α)) (k : κ)
    (v : α) : List (κ × α) :=
  match m with
  | [] => [(k, v)]
  | (k', v') :: rest =>
      if k' = k then (k, v) :: rest else (k', v') :: dictInsert rest k v

def dictGet {κ α : Type} [DecidableEq κ] (m : List (κ × α)) (k : κ) :
    Option α :=
  match m with
  | [] => none
  | (k', v') :: rest => if k' = k then some v' else dictGet rest k

theorem dictGet_dictInsert {κ α : Type} [DecidableEq κ]
    (m : List (κ × α)) (k : κ) (v : α) :
    dictGet (dictInsert m k v) k = some v := by
  induction m with
  | nil => simp [dictInsert, dictGet]
  | cons kv rest ih =>
      obtain ⟨k', v'⟩ := kv
      by_cases h : k' = k
      · simp [dictInsert, dictGet, h]
      · simp [dictInsert, dictGet, h, ih]

/-- The exception a Python call can raise. -/
inductive PyError where
  | typeError
deriving DecidableEq, Repr

/-- Outcome of SagaManager.start_saga: the registry afterwards, whether
a new saga run task was scheduled, and the exception propagated to the
caller, if any. -/
structure StartSagaResult where
  registry : List (Nat × ConfirmState)
  scheduled : Bool
  raised : Option PyError
deriving DecidableEq, Repr

/-- SagaManager.start_saga (confirmation registry, saga_manager.py).
Its first real statement is OrderSaga(order, on_finish=on_finish), but
order_saga.OrderSaga.__init__ accepts only order_id, so the constructor
call raises TypeError on every call, before the assignment
self.active_sagas[order.id] = saga and before asyncio.create_task: the
registry is unchanged, nothing is scheduled, and the TypeError
propagates to the caller. -/
def SagaManager_start_saga (active_sagas : List (Nat × ConfirmState))
    (order_id : Nat) : StartSagaResult :=
  { registry := active_sagas
    scheduled := false
    raised := some PyError.typeError }

/-- CancelSagaManager.start_saga (cancellation registry): unconditionally
builds a fresh CancelSaga in state Canceling, stores it under saga_id,
and schedules its run. -/
def CancelSagaManager_start_saga (active_sagas : List (String × CancelState))
    (saga_id : String) : List (String × CancelState) × Bool :=
  (dictInsert active_sagas saga_id .Canceling, true)

/-! ## Claim theorems -/

/-- A concrete order whose fabrication was canceled by the cancellation
saga, with delivery not started. -/
def exampleCanceledOrder : OrderRec :=
  { id := 1
    client_id := 7
    description := "No description"
    address := some "Calle X"
    pieces_a := 3
    pieces_b := 2
    number_of_pieces := 5
    creation_status := "Confirmed"
    fabrication_status := "Canceled"
    delivery_status := "NotStarted"
    status := "Canceled" }

/-- Claim C1 (counterexample): with fabrication_status already terminal
(Canceled), a warehouse event with status "working" moves the order back
to the pre-terminal value InProgress, so the handler does not leave a
terminal fabrication_status unchanged. -/
theorem claim_C1_counterexample :
    exampleCanceledOrder.fabrication_status ∈
      (["Canceled", "CancelPendingRefund", "Failed", "Completed"] : List String) ∧
    (handle_warehouse_event exampleCanceledOrder "working").1.fabrication_status =
      "InProgress" ∧
    ("InProgress" : String) ≠ "Canceled" ∧
    ("InProgress" : String) ∉
      (["Canceled", "CancelPendingRefund", "Failed", "Completed"] : List String) := by
  decide

/-- Claim C1 (amended): handle_warehouse_event always persists the
normalized status, whatever the previous fabrication_status was — a
terminal value can be overwritten, even back to a pre-terminal one; the
handler never touches creation_status or delivery_status. -/
theorem claim_C1_amended (o : OrderRec) (raw : String) :
    (handle_warehouse_event o raw).1.fabrication_status =
      normalize_fabrication_status raw ∧
    (handle_warehouse_event o raw).1.creation_status = o.creation_status ∧
    (handle_warehouse_event o raw).1.delivery_status = o.delivery_status :=
  ⟨handle_warehouse_event_fab o raw,
   (handle_warehouse_event_frame o raw).1,
   (handle_warehouse_event_frame o raw).2⟩

/-- A concrete order as seen by the confirmation saga. -/
def examplePendingOrder : OrderRec :=
  { id := 2
    client_id := 7
    description := "No description"
    address := some "Calle X"
    pieces_a := 1
    pieces_b := 0
    number_of_pieces := 1
    creation_status := "Pending"
    fabrication_status := "NotStarted"
    delivery_status := "NotStarted"
    status := "Pending" }

/-- Claim C2 (counterexample): the entry effects of Paid and NoMoney on
a concrete order contain no creation_status persistence at all, so
entering Paid does not persist creation_status=Paid and entering NoMoney
does not persist creation_status=NoMoney. -/
theorem claim_C2_counterexample :
    ConfirmEffect.persistCreationStatus CREATION_PAID ∉
      confirm_on_enter ConfirmState.Paid examplePendingOrder ∧
    ConfirmEffect.persistCreationStatus CREATION_NO_MONEY ∉
      confirm_on_enter ConfirmState.NoMoney examplePendingOrder ∧
    confirm_on_enter ConfirmState.NoMoney examplePendingOrder = [] := by
  decide

/-- Claim C2 (amended): no confirmation-saga state persists
creation_status in its entry effect; entering Paid only publishes the
check.delivery command, entering NoMoney performs no effect beyond
logging, and entering Confirmed persists fabrication_status=Requested
and publishes the do-order command to Warehouse. -/
theorem claim_C2_amended (o : OrderRec) :
    (∀ s : ConfirmState,
      (confirm_on_enter s o).all (fun e => !(isPersistCreation e)) = true) ∧
    confirm_on_enter ConfirmState.Paid o =
      [ConfirmEffect.publishDeliveryCheckCommand o.id o.client_id o.address] ∧
    confirm_on_enter ConfirmState.NoMoney o = [] ∧
    confirm_on_enter ConfirmState.Confirmed o =
      [ConfirmEffect.persistFabricationStatus MFG_REQUESTED,
       ConfirmEffect.publishDoOrder o.id o.number_of_pieces o.pieces_a o.pieces_b] :=
  ⟨fun s => confirm_on_enter_no_creation s o, rfl, rfl, rfl⟩

/-- The OrderPost request with every field left at its default:
pieces_a = 0 and pieces_b = 0. -/
def exampleEmptyPost : OrderPost := {}

/-- Claim C3 (counterexample): a creation request with
pieces_a + pieces_b = 0 passes validation and creates an order row with
number_of_pieces = 0, so creation does not reject the empty order and an
accepted creation can have fewer than 1 piece. -/
theorem claim_C3_counterexample :
    orderPostValid exampleEmptyPost = true ∧
    exampleEmptyPost.pieces_a + exampleEmptyPost.pieces_b = 0 ∧
    (create_order_from_schema exampleEmptyPost 7 1).number_of_pieces = 0 ∧
    ¬(1 ≤ (create_order_from_schema exampleEmptyPost 7 1).number_of_pieces) := by
  decide

/-- Claim C3 (amended): creation validates only the per-field ge=0
constraints — a request is accepted exactly when both piece counts are
non-negative, with no lower bound on the total — and the created row
satisfies number_of_pieces = pieces_a + pieces_b with the initial phase
statuses Pending / NotStarted / NotStarted. -/
theorem claim_C3_amended (p : OrderPost) (current_user new_id : Nat) :
    (orderPostValid p = true ↔ 0 ≤ p.pieces_a ∧ 0 ≤ p.pieces_b) ∧
    (create_order_from_schema p current_user new_id).number_of_pieces =
      p.pieces_a + p.pieces_b ∧
    (create_order_from_schema p current_user new_id).creation_status =
      CREATION_PENDING ∧
    (create_order_from_schema p current_user new_id).fabrication_status =
      MFG_NOT_STARTED ∧
    (create_order_from_schema p current_user new_id).delivery_status =
      DELIVERY_NOT_STARTED := by
  refine ⟨?_, rfl, rfl, rfl, rfl⟩
  simp [orderPostValid]

/-- A concrete order in fabrication, delivery not started. -/
def exampleRequestedOrder : OrderRec :=
  { id := 3
    client_id := 7
    description := "No description"
    address := some "Calle X"
    pieces_a := 3
    pieces_b := 2
    number_of_pieces := 5
    creation_status := "Confirmed"
    fabrication_status := "Requested"
    delivery_status := "NotStarted"
    status := "Requested" }

/-- Claim C4 (counterexample): over the warehouse event sequence
completed, working, completed the handler publishes order.fabricated
twice for the same order, so the event is not published at most once per
order. -/
theorem claim_C4_counterexample :
    ((run_warehouse_events exampleRequestedOrder
        ["completed", "working", "completed"]).2).length = 2 ∧
    ¬(((run_warehouse_events exampleRequestedOrder
        ["completed", "working", "completed"]).2).length ≤ 1) := by
  decide

/-- Claim C4 (amended): on each warehouse event, order.fabricated is
published exactly when the normalized new status is Completed, the
previous fabrication_status was not Completed, and the previous
delivery_status was NotStarted, with payload built from the order's id,
number_of_pieces and client_id; across a sequence this admits repeated
publication when fabrication_status regresses from Completed and
completes again. -/
theorem claim_C4_amended (o : OrderRec) (raw : String) :
    (handle_warehouse_event o raw).2 =
      if normalize_fabrication_status raw = MFG_COMPLETED ∧
          o.fabrication_status ≠ MFG_COMPLETED ∧
          o.delivery_status = DELIVERY_NOT_STARTED then
        [publish_order_fabricated o.id o.number_of_pieces o.client_id]
      else [] :=
  handle_warehouse_event_pubs o raw

/-- A registry holding an active cancellation saga that has reached
Refunding, under saga id s1. -/
def exampleActiveCancelRegistry : List (String × CancelState) :=
  [("s1", CancelState.Refunding)]

/-- Claim C5 (counterexample): starting a cancellation saga for a
saga_id that already has an active instance is not a no-op — the stored
instance (already in Refunding) is replaced by a fresh Canceling one and
a new run is scheduled for that key. -/
theorem claim_C5_counterexample :
    dictGet exampleActiveCancelRegistry "s1" = some CancelState.Refunding ∧
    dictGet (CancelSagaManager_start_saga exampleActiveCancelRegistry "s1").1 "s1" =
      some CancelState.Canceling ∧
    some CancelState.Canceling ≠ some CancelState.Refunding ∧
    (CancelSagaManager_start_saga exampleActiveCancelRegistry "s1").2 = true := by
  decide

/-- Claim C5 (amended): in the cancellation registry, start_saga
unconditionally stores a fresh Canceling instance under the saga_id and
schedules its run, also when an instance is already active for that key;
in the confirmation registry, every start_saga call raises a TypeError
from the OrderSaga constructor mismatch before the registry assignment,
so the registry is left unchanged and no run is ever scheduled. -/
theorem claim_C5_amended :
    (∀ (m : List (String × CancelState)) (saga_id : String),
      dictGet (CancelSagaManager_start_saga m saga_id).1 saga_id =
        some CancelState.Canceling ∧
      (CancelSagaManager_start_saga m saga_id).2 = true) ∧
    (∀ (m : List (Nat × ConfirmState)) (order_id : Nat),
      (SagaManager_start_saga m order_id).registry = m ∧
      (SagaManager_start_saga m order_id).scheduled = false ∧
      (SagaManager_start_saga m order_id).raised = some PyError.typeError) := by
  constructor
  · intro m k
    exact ⟨dictGet_dictInsert m k _, rfl⟩
  · intro m k
    exact ⟨rfl, rfl, rfl⟩

/-- Claim C6: for every saga_id and event sequence, the cancellation
record's state sequence is a prefix of a valid path through
Canceling, Refunding, then Canceled or CancelPendingRefund; the only
transition out of Canceling is fabrication_canceled to Refunding,
refunded moves Refunding to Canceled, refund_failed moves Refunding to
CancelPendingRefund storing the reason, the terminal states ignore every
event, and a refund_failed run persists error = reason on the record. -/
theorem claim_C6_cancellation_saga :
    (∀ (saga_id : String) (order_id : Nat) (events : List CancelEvent),
      (cancel_saga_run saga_id order_id events).trace = ["Canceling"] ∨
      (cancel_saga_run saga_id order_id events).trace =
        ["Canceling", "Refunding"] ∨
      (cancel_saga_run saga_id order_id events).trace =
        ["Canceling", "Refunding", "Canceled"] ∨
      (cancel_saga_run saga_id order_id events).trace =
        ["Canceling", "Refunding", "CancelPendingRefund"]) ∧
    (∀ (s : CancelState) (le : Option String) (e : CancelEvent),
      (cancel_on_event s le e).1 = specCancelTransitionC6 s e) ∧
    (∀ (s : CancelState) (le : Option String) (e : CancelEvent),
      (cancel_on_event s le e).2 =
        if s = CancelState.Refunding ∧ e.type = "refund_failed" then e.reason
        else le) ∧
    (∀ (saga_id : String) (order_id : Nat) (reason : String),
      (cancel_saga_run saga_id order_id
        [{ type := "fabrication_canceled" },
         { type := "refund_failed", reason := some reason }]).record.state =
        "CancelPendingRefund" ∧
      (cancel_saga_run saga_id order_id
        [{ type := "fabrication_canceled" },
         { type := "refund_failed", reason := some reason }]).record.error =
        some reason) := by
  refine ⟨?_, cancel_on_event_eq_spec, cancel_on_event_error, ?_⟩
  · intro saga_id order_id events
    rcases cancel_run_inv saga_id order_id events with
      ⟨_, ht, _⟩ | ⟨_, ht, _⟩ | ⟨_, ht, _⟩ | ⟨_, ht, _⟩
    · exact Or.inl ht
    · exact Or.inr (Or.inl ht)
    · exact Or.inr (Or.inr (Or.inl ht))
    · exact Or.inr (Or.inr (Or.inr ht))
  · intro saga_id order_id reason
    exact ⟨rfl, rfl⟩

/-- Claim C7 (counterexample): the canonical string "request" lies
outside all four token sets listed in the claim, so the claim maps it to
InProgress, yet the normalizer maps it to Requested. -/
theorem claim_C7_counterexample :
    ("request" : String) ∉
      (["completed", "complete", "done", "finished", "fabricated"] : List String) ∧
    ("request" : String) ∉
      (["in_progress", "working", "manufacturing", "fabricating", "running"] :
        List String) ∧
    ("request" : String) ∉
      (["requested", "queued", "pending", "created"] : List String) ∧
    ("request" : String) ∉
      (["failed", "error", "ko", "rejected"] : List String) ∧
    normalize_fabrication_status "request" = MFG_REQUESTED ∧
    MFG_REQUESTED ≠ MFG_IN_PROGRESS := by
  decide

/-- Claim C7 (amended): the normalizer maps exactly the code's token
sets — the Requested set additionally contains "request" and the
InProgress set additionally contains "inprogress" — and every empty or
unknown string to InProgress. -/
theorem claim_C7_amended (x : String) :
    normalize_fabrication_status x = specNormalizeAmendedC7 x :=
  normalize_eq_specAmended x

/-- Claim C8: the confirmation saga's transition function is exactly the
claimed table — Pending moves to Paid on payment_accepted and to NoMoney
on payment_rejected, Paid moves to Confirmed on delivery_possible and to
NotDeliverable on delivery_not_possible, NotDeliverable moves to
Returned on money_returned, every other pair stays put — the initial
state is Pending, and Confirmed, NoMoney and Returned ignore every
event. -/
theorem claim_C8_confirm_transitions :
    confirmInitialState = ConfirmState.Pending ∧
    (∀ (s : ConfirmState) (evt : String),
      confirm_on_event s evt = specConfirmTransitionC8 s evt) ∧
    (∀ evt, confirm_on_event ConfirmState.Confirmed evt = ConfirmState.Confirmed) ∧
    (∀ evt, confirm_on_event ConfirmState.NoMoney evt = ConfirmState.NoMoney) ∧
    (∀ evt, confirm_on_event ConfirmState.Returned evt = ConfirmState.Returned) :=
  ⟨rfl, confirm_on_event_eq_spec, fun _ => rfl, fun _ => rfl, fun _ => rfl⟩

/-- Claim C10: each phase-status update sets its own phase field and
also overwrites the legacy status column with the same value, leaving
the other two phase fields unchanged — so after any such update the
legacy column equals the most recent phase value written. -/
theorem claim_C10_legacy_status_sync (o : OrderRec) (s : String) :
    (update_order_creation_status o s).creation_status = s ∧
    (update_order_creation_status o s).status = s ∧
    (update_order_creation_status o s).fabrication_status = o.fabrication_status ∧
    (update_order_creation_status o s).delivery_status = o.delivery_status ∧
    (update_order_fabrication_status o s).fabrication_status = s ∧
    (update_order_fabrication_status o s).status = s ∧
    (update_order_fabrication_status o s).creation_status = o.creation_status ∧
    (update_order_fabrication_status o s).delivery_status = o.delivery_status ∧
    (update_order_delivery_status o s).delivery_status = s ∧
    (update_order_delivery_status o s).status = s ∧
    (update_order_delivery_status o s).creation_status = o.creation_status ∧
    (update_order_delivery_status o s).fabrication_status = o.fabrication_status :=
  ⟨rfl, rfl, rfl, rfl, rfl, rfl, rfl, rfl, rfl, rfl, rfl, rfl⟩

end OrderService
